import Mathlib

/-!
A shallow embedding of the Harmona health-data harmonization pipeline
(`data_harmonization.py`, class `HealthDataHarmonizer`) together with
theorems that check the natural-language specification against it.

Conventions of the embedding:
* calendar dates are natural numbers (only their ordering and equality matter);
* floating-point metric values are rationals; a pandas `NaN` cell is `none`
  and a present numeric cell is `some q` (`Option ℚ`);
* a pandas DataFrame produced by an adapter is a `NamedTable`: a column-name
  list plus rows keyed by date, each row an association list from column
  name to nullable value;
* fallible operations (`try`/`except`, `astype` conversions) are `Except`.
-/

namespace Harmona

/-! ### Trend classification (`calculate_trends`, lines 254-275) -/

/-- The four labels `calculate_trends` can emit. -/
inductive TrendLabel
  | insufficient
  | improving
  | declining
  | stable
deriving DecidableEq

/-- Sum of a list of rationals. -/
def listSum (l : List ℚ) : ℚ := l.foldr (· + ·) 0

/-- Ordinary least-squares slope of y against x for a list of (x, y) points.
This is the degree-one coefficient returned by `np.polyfit(xs, ys, 1)[0]`,
written in the closed form (n·Σxy − Σx·Σy) / (n·Σx² − (Σx)²). -/
def olsSlopeXY (pts : List (ℚ × ℚ)) : ℚ :=
  let n : ℚ := pts.length
  let sx := listSum (pts.map (fun p => p.1))
  let sy := listSum (pts.map (fun p => p.2))
  let sxy := listSum (pts.map (fun p => p.1 * p.2))
  let sxx := listSum (pts.map (fun p => p.1 * p.1))
  (n * sxy - sx * sy) / (n * sxx - sx * sx)

/-- `np.polyfit(range(len(ys)), ys, 1)[0]`: least-squares slope of the values
against their 0-based positions in the list. -/
def olsSlope (ys : List ℚ) : ℚ :=
  olsSlopeXY (ys.enum.map (fun p => ((p.1 : ℚ), p.2)))

/-- Threshold classification of a slope (lines 268-273):
`slope > 0.1` is improving, `slope < -0.1` is declining, otherwise stable. -/
def slopeLabel (s : ℚ) : TrendLabel :=
  if s > 1 / 10 then .improving
  else if s < -(1 / 10) then .declining
  else .stable

/-- The body of the loop of `calculate_trends` for the row at 0-based index
`i` of the date-sorted table (the table is built date-sorted with a
0..n-1 positional index, so the `iterrows` label equals the position):
if `i < window - 1` the label is `insufficient_data`; otherwise the trailing
`window` rows `iloc[i-window+1 : i+1]` are taken, nulls dropped, and with
fewer than 5 values left the label is `insufficient_data`, else the label of
the least-squares slope of the remaining values against `range(len(...))`. -/
def trendAt (vals : List (Option ℚ)) (window i : ℕ) : TrendLabel :=
  if i < window - 1 then .insufficient
  else
    let recent := ((vals.drop (i + 1 - window)).take window).filterMap id
    if recent.length < 5 then .insufficient
    else slopeLabel (olsSlope recent)

/-- `calculate_trends(df, metric, window)`: one trend label per row of the
date-sorted metric column, appended in row order. -/
def calculate_trends (vals : List (Option ℚ)) (window : ℕ) : List TrendLabel :=
  (List.range vals.length).map (fun i => trendAt vals window i)

/-- An arithmetic progression `a, a+d, …, a+(n-1)d` of metric values. -/
def arithSeq (a d : ℚ) (n : ℕ) : List ℚ := (List.range n).map (fun (i : ℕ) => a + d * (i : ℚ))

/-- Modelled from the spec sentence "fit an ordinary least-squares line of
value vs. position-in-window": the non-null values of the trailing 30-row
window ending at row `i`, each paired with its 0-based position INSIDE the
window (the code instead re-indexes the null-stripped values consecutively). -/
def windowPoints (w : List (Option ℚ)) : List (ℚ × ℚ) :=
  w.enum.filterMap (fun p => p.2.map (fun v => ((p.1 : ℚ), v)))

/-- The trend label claim C5 describes, read literally: at row `i ≥ 29`,
drop nulls from the trailing 30-row window, require 5 values, and classify
the least-squares slope of value against position-in-window. -/
def trendAtSpecC5 (vals : List (Option ℚ)) (i : ℕ) : TrendLabel :=
  if i < 29 then .insufficient
  else
    let pts := windowPoints ((vals.take (i + 1)).drop (i + 1 - 30))
    if pts.length < 5 then .insufficient
    else slopeLabel (olsSlopeXY pts)

/-- The amended description of the per-row trend: nulls are dropped from the
trailing 30-row window and the surviving values are re-indexed 0,1,2,… before
the least-squares fit (so gaps left by nulls are collapsed). -/
def trendAtAmendedC5 (vals : List (Option ℚ)) (i : ℕ) : TrendLabel :=
  let ws := ((vals.take (i + 1)).drop (i + 1 - 30)).filterMap id
  if ws.length < 5 then .insufficient
  else slopeLabel (olsSlope ws)

set_option maxHeartbeats 1000000

/-- Helper: the least-squares slope of a 30-term arithmetic progression is
exactly its common difference. -/
theorem olsSlope_arithSeq (a d : ℚ) : olsSlope (arithSeq a d 30) = d := by
  simp only [arithSeq, olsSlope, olsSlopeXY, listSum, List.range_succ, List.map_append,
    List.map_cons, List.map_nil, List.enum, List.enumFrom, List.length_map, List.length_range,
    List.length_append, List.length_cons, List.length_nil]
  norm_num
  rw [div_eq_iff (by norm_num)]
  ring

/-- Helper: the trend label at the last row of a full 30-value window placed
after an arbitrary prefix is the slope label of those 30 values. -/
theorem trend_full_window (w : List ℚ) (hw : w.length = 30) (p : List (Option ℚ)) :
    (calculate_trends (p ++ w.map some) 30)[p.length + 29]? = some (slopeLabel (olsSlope w)) := by
  have hlen : p.length + 29 < (p ++ w.map some).length := by
    simp [List.length_append, hw]
  unfold calculate_trends
  rw [List.getElem?_map, List.getElem?_range hlen]
  simp only [Option.map_some']
  unfold trendAt
  have hno : ¬ (p.length + 29 < 30 - 1) := by omega
  rw [if_neg hno]
  have hdrop : p.length + 29 + 1 - 30 = p.length := by omega
  rw [hdrop, List.drop_left]
  have htake : (w.map some).take 30 = w.map some := by
    apply List.take_of_length_le
    simp [hw]
  rw [htake]
  have hfm : (w.map some).filterMap id = w := by
    rw [List.filterMap_map]
    simp
  rw [hfm]
  have hrec : ¬ (w.length < 5) := by omega
  rw [if_neg hrec]

/-- C4 (amended): over a full trailing 30-row window of non-null values in
arithmetic progression with common difference `d`, placed after any prefix,
the trend label at the window's last row is `improving` when `d > 0.1`,
`declining` when `d < -0.1`, and `stable` when the window is constant
(`d = 0`). -/
theorem C4_arith_window (p : List (Option ℚ)) (a d : ℚ) :
    (1 / 10 < d →
      (calculate_trends (p ++ (arithSeq a d 30).map some) 30)[p.length + 29]? =
        some .improving) ∧
    (d < -(1 / 10) →
      (calculate_trends (p ++ (arithSeq a d 30).map some) 30)[p.length + 29]? =
        some .declining) ∧
    (d = 0 →
      (calculate_trends (p ++ (arithSeq a d 30).map some) 30)[p.length + 29]? =
        some .stable) := by
  have harith : (arithSeq a d 30).length = 30 := by
    unfold arithSeq
    rw [List.length_map, List.length_range]
  have key := trend_full_window (arithSeq a d 30) harith p
  rw [olsSlope_arithSeq] at key
  refine ⟨fun h => ?_, fun h => ?_, fun h => ?_⟩
  · rw [key]
    unfold slopeLabel
    rw [if_pos h]
  · rw [key]
    unfold slopeLabel
    rw [if_neg (by linarith), if_pos h]
  · rw [key]
    subst h
    norm_num [slopeLabel]

/-- Witness for C4 at concrete windows with `d = 1`, `d = -1` and `d = 0`. -/
theorem C4_witness :
    (calculate_trends ([] ++ (arithSeq 5 1 30).map some) 30)[List.length ([] : List (Option ℚ)) + 29]? =
        some .improving ∧
    (calculate_trends ([] ++ (arithSeq 5 (-1) 30).map some) 30)[List.length ([] : List (Option ℚ)) + 29]? =
        some .declining ∧
    (calculate_trends ([] ++ (arithSeq 5 0 30).map some) 30)[List.length ([] : List (Option ℚ)) + 29]? =
        some .stable :=
  ⟨(C4_arith_window [] 5 1).1 (by norm_num),
   (C4_arith_window [] 5 (-1)).2.1 (by norm_num),
   (C4_arith_window [] 5 0).2.2 rfl⟩

/-- Counterexample to C4 as stated: the window `0, 0.001, 0.002, …, 0.029`
is strictly increasing with no nulls, yet its fitted slope is `0.001 ≤ 0.1`,
so the label at the window's last row is `stable`, not `improving`. -/
theorem C4_counterexample :
    List.Pairwise (· < ·) (arithSeq 0 (1 / 1000) 30) ∧
    (calculate_trends ((arithSeq 0 (1 / 1000) 30).map some) 30)[29]? = some .stable := by
  constructor
  · unfold arithSeq
    refine List.Pairwise.map _ ?_ (List.pairwise_lt_range 30)
    intro i j hij
    have h : (i : ℚ) < (j : ℚ) := by exact_mod_cast hij
    show (0 : ℚ) + 1 / 1000 * (i : ℚ) < 0 + 1 / 1000 * (j : ℚ)
    linarith
  · have harith : (arithSeq 0 (1 / 1000) 30).length = 30 := by
      unfold arithSeq
      rw [List.length_map, List.length_range]
    have key := trend_full_window (arithSeq 0 (1 / 1000) 30) harith []
    rw [olsSlope_arithSeq] at key
    have : slopeLabel (1 / 1000) = .stable := by norm_num [slopeLabel]
    rw [this] at key
    simpa using key

/-- C3: for every metric column of a date-sorted unified table and every
0-based row index `i < 29`, the trend label is `insufficient_data`,
whatever the metric's values are. -/
theorem C3_first29_insufficient (vals : List (Option ℚ)) (i : ℕ)
    (h29 : i < 29) (hlen : i < vals.length) :
    (calculate_trends vals 30)[i]? = some .insufficient := by
  unfold calculate_trends
  rw [List.getElem?_map, List.getElem?_range hlen]
  simp only [Option.map_some']
  unfold trendAt
  rw [if_pos (show i < 30 - 1 by omega)]

/-- Witness for C3 at a concrete table and index. -/
theorem C3_witness :
    0 < 29 ∧ 0 < ([none, some (1 : ℚ)] : List (Option ℚ)).length ∧
      (calculate_trends [none, some (1 : ℚ)] 30)[0]? = some .insufficient :=
  ⟨by norm_num, by simp, C3_first29_insufficient [none, some 1] 0 (by norm_num) (by simp)⟩

/-- C5 (amended): at every row `i ≥ 29` the code's trend label is the
amended description: drop nulls from the trailing 30-row window, report
`insufficient_data` under 5 surviving values, otherwise classify the
least-squares slope of the surviving values re-indexed consecutively. -/
theorem C5_trend_amended (vals : List (Option ℚ)) (i : ℕ)
    (h29 : 29 ≤ i) (hlen : i < vals.length) :
    (calculate_trends vals 30)[i]? = some (trendAtAmendedC5 vals i) := by
  unfold calculate_trends
  rw [List.getElem?_map, List.getElem?_range hlen]
  simp only [Option.map_some']
  unfold trendAt trendAtAmendedC5
  rw [if_neg (show ¬ i < 30 - 1 by omega)]
  have hcomm : (vals.take (i + 1)).drop (i + 1 - 30) = (vals.drop (i + 1 - 30)).take 30 := by
    rw [List.drop_take]
    congr 1
    omega
  rw [hcomm]

/-- Witness for C5 at a concrete all-null table and row 29. -/
theorem C5_witness :
    29 ≤ 29 ∧ 29 < (List.replicate 30 (none : Option ℚ)).length ∧
      (calculate_trends (List.replicate 30 (none : Option ℚ)) 30)[29]? =
        some (trendAtAmendedC5 (List.replicate 30 none) 29) :=
  ⟨le_refl 29, by simp, C5_trend_amended (List.replicate 30 none) 29 (le_refl 29) (by simp)⟩

/-- A 30-row window whose five non-null values sit at window positions
0, 7, 14, 21, 28 with values 0, 0.15, 0.3, 0.45, 0.6. -/
def c5vals : List (Option ℚ) :=
  [some 0, none, none, none, none, none, none,
   some (3 / 20), none, none, none, none, none, none,
   some (3 / 10), none, none, none, none, none, none,
   some (9 / 20), none, none, none, none, none, none,
   some (3 / 5), none]

/-- Counterexample to C5 as stated: on `c5vals` the least-squares slope of
value against position-in-window is 3/140 ≤ 0.1, so the claim's rule labels
row 29 `stable`, but the code re-indexes the five non-null values as
0,1,2,3,4, fits slope 0.15 > 0.1, and labels the row `improving`. -/
theorem C5_counterexample :
    (calculate_trends c5vals 30)[29]? = some .improving ∧
    trendAtSpecC5 c5vals 29 = .stable := by
  constructor
  · have hlen : (29 : ℕ) < c5vals.length := by norm_num [c5vals]
    unfold calculate_trends
    rw [List.getElem?_map, List.getElem?_range hlen]
    simp only [Option.map_some']
    norm_num [trendAt, c5vals, olsSlope, olsSlopeXY, listSum, slopeLabel,
      List.enum, List.enumFrom, List.filterMap_cons, List.filterMap_nil,
      Option.map_some, Option.map_none, id]
  · norm_num [trendAtSpecC5, c5vals, windowPoints, olsSlopeXY, listSum, slopeLabel,
      List.enum, List.enumFrom, List.filterMap_cons, List.filterMap_nil,
      Option.map_some, Option.map_none, id]

/-! ### The Unifier (`harmonize_data`, lines 277-368)

`harmonize_data` collects the five per-source daily tables, builds the
sorted union of their dates (only non-empty tables contribute, lines
292-297), left-joins each non-empty table onto that axis (lines 304-308),
and then populates each unified-schema field with
`unified_data.get(col, default)` chains (lines 319-368). `DataFrame.get`
falls back to its default only when the COLUMN is absent from the merged
frame, i.e. when every source providing that column failed or was empty;
a null VALUE in a present column is returned as-is. -/

/-- A per-source daily table: its column names and its rows, one per date,
each row an association list from column name to nullable value. -/
structure NamedTable where
  cols : List String
  rows : List (ℕ × List (String × Option ℚ))

/-- The tables that pass the `if not df.empty` / `if not data.empty`
guards of `harmonize_data`. -/
def nonEmptyTables (ts : List NamedTable) : List NamedTable :=
  ts.filter (fun t => !t.rows.isEmpty)

/-- `all_dates`: the union of the date columns of the non-empty source
tables (a Python set, realized as a duplicate-free list). -/
def allDates (ts : List NamedTable) : List ℕ :=
  ((nonEmptyTables ts).foldr (fun t acc => t.rows.map Prod.fst ++ acc) []).dedup

/-- `sorted(all_dates)`: the canonical date axis of the unified table. -/
def unifiedDates (ts : List NamedTable) : List ℕ :=
  (allDates ts).insertionSort (· ≤ ·)

/-- The non-empty source table whose column `c` survives the left-joins
under its own name (on a collision the earlier-merged table keeps the
unsuffixed name, so the first match in merge order wins). `none` means the
merged frame has no column `c`. -/
def colOwner (ts : List NamedTable) (c : String) : Option NamedTable :=
  (nonEmptyTables ts).find? (fun t => t.cols.contains c)

/-- The value of column `c` of source table `t` at axis date `d` after the
left-join: `none` when `t` has no row for `d` (join miss becomes NaN) or
when the stored cell is null. -/
def cellAt (t : NamedTable) (c : String) (d : ℕ) : Option ℚ :=
  match t.rows.find? (fun r => r.1 == d) with
  | none => none
  | some r =>
    match r.2.find? (fun p => p.1 == c) with
    | none => none
    | some p => p.2

/-- A nested `unified_data.get(c₁, unified_data.get(c₂, … np.nan))` chain:
the first candidate column PRESENT in the merged frame supplies the value
(possibly null); only an absent column falls through to the next
candidate. -/
def dfGetChain (ts : List NamedTable) (cands : List String) (d : ℕ) : Option ℚ :=
  match cands with
  | [] => none
  | c :: rest =>
    match colOwner ts c with
    | some t => cellAt t c d
    | none => dfGetChain ts rest d

/-- The candidate source-native columns for `avg_hrv_ms` (lines 321-323):
WHOOP, then EliteHRV, then Pison. -/
def hrvCandidates : List String := ["Heart rate variability (ms)", "HRV", "hrv_ms"]

/-- `harmonized_data['avg_hrv_ms']` at one axis date. -/
def avg_hrv_ms (ts : List NamedTable) (d : ℕ) : Option ℚ :=
  dfGetChain ts hrvCandidates d

/-- Modelled from the spec sentence "take the first candidate whose value
is non-null for that date": per-date first-non-null resolution across the
candidate columns. -/
def specFirstNonNull (ts : List NamedTable) (cands : List String) (d : ℕ) : Option ℚ :=
  match cands with
  | [] => none
  | c :: rest =>
    match colOwner ts c with
    | some t =>
      match cellAt t c d with
      | some v => some v
      | none => specFirstNonNull ts rest d
    | none => specFirstNonNull ts rest d

/-- The first candidate column that is present in the merged frame at all,
regardless of its value at any particular date. -/
def firstPresentCandidate (ts : List NamedTable) (cands : List String) : Option String :=
  cands.find? (fun c => (colOwner ts c).isSome)

/-- The amended resolution rule: the first PRESENT candidate column decides
the field, contributing its (possibly null) value at the date. -/
def amendedFieldValue (ts : List NamedTable) (cands : List String) (d : ℕ) : Option ℚ :=
  match firstPresentCandidate ts cands with
  | none => none
  | some c =>
    match colOwner ts c with
    | some t => cellAt t c d
    | none => none

/-- A concrete WHOOP daily table covering only date 1 (with its full
native column set, HRV 80 that day). -/
def whoopEx : NamedTable where
  cols := ["date", "Recovery score %", "Resting heart rate (bpm)",
    "Heart rate variability (ms)", "Skin temp (celsius)", "Blood oxygen %",
    "Day Strain", "Energy burned (cal)", "Max HR (bpm)", "Average HR (bpm)",
    "Sleep performance %", "Respiratory rate (rpm)", "Asleep duration (min)",
    "In bed duration (min)", "Light sleep duration (min)",
    "Deep (SWS) duration (min)", "REM duration (min)", "Awake duration (min)",
    "Sleep need (min)", "Sleep debt (min)", "Sleep efficiency %",
    "Sleep consistency %", "sleep_duration_hours", "deep_sleep_pct",
    "rem_sleep_pct", "sleep_debt_hours"]
  rows := [(1,
    [("Recovery score %", some 60), ("Resting heart rate (bpm)", some 55),
     ("Heart rate variability (ms)", some 80), ("Skin temp (celsius)", some 33),
     ("Blood oxygen %", some 97), ("Day Strain", some 12),
     ("Energy burned (cal)", some 2500), ("Max HR (bpm)", some 170),
     ("Average HR (bpm)", some 80), ("Sleep performance %", some 90),
     ("Respiratory rate (rpm)", some 15), ("Asleep duration (min)", some 420),
     ("In bed duration (min)", some 450), ("Light sleep duration (min)", some 200),
     ("Deep (SWS) duration (min)", some 100), ("REM duration (min)", some 120),
     ("Awake duration (min)", some 30), ("Sleep need (min)", some 440),
     ("Sleep debt (min)", some 20), ("Sleep efficiency %", some 93),
     ("Sleep consistency %", some 85), ("sleep_duration_hours", some 7),
     ("deep_sleep_pct", some 24), ("rem_sleep_pct", some 29),
     ("sleep_debt_hours", some (1 / 3))])]

/-- A concrete EliteHRV daily table covering dates 1 and 2 (HRV 40 then 50). -/
def eliteEx : NamedTable where
  cols := ["date", "HRV", "Morning Readiness", "HR", "Rmssd", "Sdnn",
    "LF/HF Ratio", "Total Power"]
  rows := [(1,
    [("HRV", some 40), ("Morning Readiness", some 7), ("HR", some 60),
     ("Rmssd", some 65), ("Sdnn", some 70), ("LF/HF Ratio", some 2),
     ("Total Power", some 2000)]),
   (2,
    [("HRV", some 50), ("Morning Readiness", some 8), ("HR", some 58),
     ("Rmssd", some 68), ("Sdnn", some 72), ("LF/HF Ratio", some 2),
     ("Total Power", some 2100)])]

/-- The empty table a failed adapter contributes (`pd.DataFrame()`). -/
def emptyTable : NamedTable where
  cols := []
  rows := []

/-- The five adapter outputs of a run where Starfit, Dexcom and Pison
failed: WHOOP covers date 1 only, EliteHRV covers dates 1 and 2. -/
def c1Tables : List NamedTable :=
  [whoopEx, emptyTable, eliteEx, emptyTable, emptyTable]

/-- Counterexample to C1 as stated: at date 2 the first candidate with a
non-null value is EliteHRV's `HRV` column (value 50), yet the unified
`avg_hrv_ms` is null, because the higher-priority WHOOP column exists in
the merged frame (WHOOP loaded non-empty) and its value at date 2 — a
left-join miss — is NaN, which `DataFrame.get` never falls through. -/
theorem C1_counterexample :
    avg_hrv_ms c1Tables 2 = none ∧
    specFirstNonNull c1Tables hrvCandidates 2 = some 50 := by
  constructor
  · rfl
  · rfl

/-- C1 (amended): a `unified_data.get` fallback chain resolves a field from
the first candidate column PRESENT in the merged frame — fallback is
column-level, not per-date — and when that first present column's value is
non-null at the date (in particular when a higher-priority source reports a
non-null value), that value is the unified value. -/
theorem C1_field_priority (ts : List NamedTable) (cands : List String) (d : ℕ) :
    dfGetChain ts cands d = amendedFieldValue ts cands d ∧
    (∀ c t v, firstPresentCandidate ts cands = some c → colOwner ts c = some t →
      cellAt t c d = some v → dfGetChain ts cands d = some v) := by
  have hmain : dfGetChain ts cands d = amendedFieldValue ts cands d := by
    induction cands with
    | nil => rfl
    | cons c rest ih =>
      unfold dfGetChain
      cases hco : colOwner ts c with
      | some t =>
        unfold amendedFieldValue firstPresentCandidate
        rw [List.find?_cons_of_pos _ (by simp [hco])]
        simp [hco]
      | none =>
        rw [ih]
        unfold amendedFieldValue firstPresentCandidate
        rw [List.find?_cons_of_neg _ (by simp [hco])]
  refine ⟨hmain, fun c t v hfp hco hcell => ?_⟩
  rw [hmain]
  simp [amendedFieldValue, hfp, hco, hcell]

/-- Witness for C1 at the concrete run: at date 1 WHOOP's column is the
first present candidate and its value 80 is the unified value. -/
theorem C1_witness :
    firstPresentCandidate c1Tables hrvCandidates = some "Heart rate variability (ms)" ∧
    colOwner c1Tables "Heart rate variability (ms)" = some whoopEx ∧
    cellAt whoopEx "Heart rate variability (ms)" 1 = some 80 ∧
    dfGetChain c1Tables hrvCandidates 1 = some 80 :=
  ⟨rfl, rfl, rfl,
    (C1_field_priority c1Tables hrvCandidates 1).2 "Heart rate variability (ms)"
      whoopEx 80 rfl rfl rfl⟩

/-- Helper: membership in the concatenation of the date columns. -/
theorem mem_foldr_dates (l : List NamedTable) (d : ℕ) :
    d ∈ l.foldr (fun t acc => t.rows.map Prod.fst ++ acc) [] ↔
      ∃ t ∈ l, d ∈ t.rows.map Prod.fst := by
  induction l with
  | nil => simp
  | cons t rest ih => simp [List.mem_append, ih]

/-- Helper: the canonical date axis has no duplicates. -/
theorem unifiedDates_nodup (ts : List NamedTable) : (unifiedDates ts).Nodup :=
  ((List.perm_insertionSort (· ≤ ·) (allDates ts)).nodup_iff).2 (List.nodup_dedup _)

/-- C2: the unified table's date axis is strictly ascending; a date is on
the axis exactly when some non-empty source table covers it (each such date
exactly once, no omissions); and a date no owning source covers yields a
null field value under every `get`-chain rather than a dropped row. -/
theorem C2_unified_axis (ts : List NamedTable) :
    (unifiedDates ts).Sorted (· < ·) ∧
    (∀ d : ℕ, d ∈ unifiedDates ts ↔
      ∃ t ∈ ts, t.rows ≠ [] ∧ d ∈ t.rows.map Prod.fst) ∧
    (∀ d : ℕ, d ∈ unifiedDates ts → (unifiedDates ts).count d = 1) ∧
    (∀ (cands : List String) (d : ℕ),
      (∀ c ∈ cands, ∀ t, colOwner ts c = some t → d ∉ t.rows.map Prod.fst) →
      dfGetChain ts cands d = none) := by
  refine ⟨?_, ?_, ?_, ?_⟩
  · have hs : (unifiedDates ts).Pairwise (· ≤ ·) :=
      List.sorted_insertionSort (· ≤ ·) (allDates ts)
    have hn : (unifiedDates ts).Pairwise (· ≠ ·) := unifiedDates_nodup ts
    exact (hs.and hn).imp (fun hab => lt_of_le_of_ne hab.1 hab.2)
  · intro d
    unfold unifiedDates allDates
    rw [List.mem_insertionSort, List.mem_dedup, mem_foldr_dates]
    constructor
    · rintro ⟨t, ht, hd⟩
      rw [nonEmptyTables, List.mem_filter] at ht
      refine ⟨t, ht.1, ?_, hd⟩
      intro hrows
      simp [hrows] at ht
    · rintro ⟨t, ht, hne, hd⟩
      refine ⟨t, ?_, hd⟩
      rw [nonEmptyTables, List.mem_filter]
      exact ⟨ht, by simp [hne]⟩
  · intro d hd
    exact List.count_eq_one_of_mem (unifiedDates_nodup ts) hd
  · intro cands d h
    induction cands with
    | nil => rfl
    | cons c rest ih =>
      unfold dfGetChain
      cases hco : colOwner ts c with
      | some t =>
        have hnotin := h c (by simp) t hco
        cases hfind : t.rows.find? (fun r => r.1 == d) with
        | none => simp [cellAt, hfind]
        | some r =>
          exfalso
          have hpr := List.find?_some hfind
          have hmem := List.mem_of_find?_eq_some hfind
          apply hnotin
          rw [beq_iff_eq] at hpr
          exact List.mem_map.2 ⟨r, hmem, hpr⟩
      | none =>
        exact ih (fun c hc => h c (by simp [hc]))

/-- Witness for C2 at the concrete run `c1Tables`: date 2 is on the axis
(it is an EliteHRV date), appears exactly once, and the Dexcom-only
`glucose_mg_dl` chain — whose column no loaded source owns — is null at
date 2 instead of dropping the row. -/
theorem C2_witness :
    2 ∈ unifiedDates c1Tables ∧
    (unifiedDates c1Tables).count 2 = 1 ∧
    dfGetChain c1Tables ["glucose_mg_dl"] 2 = none := by
  have hmem : 2 ∈ unifiedDates c1Tables :=
    (C2_unified_axis c1Tables).2.1 2 |>.2
      ⟨eliteEx, by simp [c1Tables], by simp [eliteEx], by simp [eliteEx]⟩
  refine ⟨hmem, (C2_unified_axis c1Tables).2.2.1 2 hmem, ?_⟩
  refine (C2_unified_axis c1Tables).2.2.2 ["glucose_mg_dl"] 2 ?_
  intro c hc t hct
  simp only [List.mem_singleton] at hc
  subst hc
  have : colOwner c1Tables "glucose_mg_dl" = none := rfl
  rw [this] at hct
  exact absurd hct (by simp)

/-! ### Adapter error degradation (`load_*_data`, e.g. lines 59-103)

Every adapter body is wrapped in `try`/`except Exception`: any I/O or
schema error (missing file, missing expected column, `KeyError` from the
aggregation dict) is caught, logged with `print`, and turned into an empty
`pd.DataFrame()`. `harmonize_data` then skips empty tables when building
the axis and when merging, so a failed source simply contributes nothing. -/

/-- The table an adapter hands to `harmonize_data`: its parsed table on
success, the empty frame when its body raised. -/
def adapterResult (r : Except String NamedTable) : NamedTable :=
  match r with
  | .ok t => t
  | .error _ => ⟨[], []⟩

/-- All five adapter outcomes, as the tables the pipeline actually merges. -/
def loadedTables (rs : List (Except String NamedTable)) : List NamedTable :=
  rs.map adapterResult

/-- Only the tables of the adapters that succeeded. -/
def okTables (rs : List (Except String NamedTable)) : List NamedTable :=
  rs.filterMap Except.toOption

/-- Helper: failed adapters are invisible to the non-empty-table filter. -/
theorem nonEmpty_loaded_eq (rs : List (Except String NamedTable)) :
    nonEmptyTables (loadedTables rs) = nonEmptyTables (okTables rs) := by
  induction rs with
  | nil => rfl
  | cons r rest ih =>
    cases r with
    | error e =>
      simpa [loadedTables, okTables, nonEmptyTables, adapterResult,
        Except.toOption, List.filter_cons] using ih
    | ok t =>
      unfold loadedTables okTables at ih ⊢
      simp only [List.map_cons, List.filterMap_cons, adapterResult, Except.toOption]
      unfold nonEmptyTables at ih ⊢
      simp only [List.filter_cons]
      rw [ih]

/-- C7: an adapter error yields the empty table rather than aborting, and
the pipeline's date axis and every field-resolution chain are exactly what
they would be with only the successful sources — harmonization proceeds
and produces the full unified table of the sources that succeeded. -/
theorem C7_adapter_errors_degrade (rs : List (Except String NamedTable)) :
    (∀ e, adapterResult (.error e) = ⟨[], []⟩) ∧
    unifiedDates (loadedTables rs) = unifiedDates (okTables rs) ∧
    (∀ (cands : List String) (d : ℕ),
      dfGetChain (loadedTables rs) cands d = dfGetChain (okTables rs) cands d) := by
  refine ⟨fun e => rfl, ?_, ?_⟩
  · unfold unifiedDates allDates
    rw [nonEmpty_loaded_eq]
  · intro cands d
    induction cands with
    | nil => rfl
    | cons c rest ih =>
      unfold dfGetChain colOwner
      rw [nonEmpty_loaded_eq]
      cases hco : (nonEmptyTables (okTables rs)).find? (fun t => t.cols.contains c) with
      | some t => rfl
      | none => exact ih

/-! ### Risk Classifier (`calculate_risk_scores`, lines 210-252) and
data-quality score (lines 389-410)

Both are applied to rows of `harmonized_data` after the field mapping, so
every consulted key exists in the row (the `row.get(key, 0)` defaults never
fire) and a missing measurement is a NaN value. A float comparison against
NaN is False in Python, which `optLt`/`optGt` mirror on `Option ℚ`. -/

/-- The fields of a harmonized row consulted by the risk rules and the
quality score, nullable like every unified metric. -/
structure HRow where
  avg_resting_hr_bpm : Option ℚ
  avg_hrv_ms : Option ℚ
  recovery_score_pct : Option ℚ
  cognitive_readiness_score : Option ℚ
  focus_score : Option ℚ
  stress_level : Option ℚ
  time_in_range_pct : Option ℚ
  gmi_percent : Option ℚ
  muscle_mass_kg : Option ℚ
  bone_mass_kg : Option ℚ
  weight_kg : Option ℚ
  bmi : Option ℚ
  body_fat_pct : Option ℚ
  avg_glucose_mg_dl : Option ℚ
  mental_agility_score : Option ℚ

/-- `x < c` under float semantics: comparisons with NaN are False. -/
def optLt (x : Option ℚ) (c : ℚ) : Bool :=
  match x with
  | some v => decide (v < c)
  | none => false

/-- `x > c` under float semantics: comparisons with NaN are False. -/
def optGt (x : Option ℚ) (c : ℚ) : Bool :=
  match x with
  | some v => decide (c < v)
  | none => false

/-- Cardiovascular rule (lines 214-222): abnormal when HRV < 30 or resting
HR > 100 or recovery < 40. -/
def cardiovascular_risk_score (r : HRow) : String :=
  if optLt r.avg_hrv_ms 30 || optGt r.avg_resting_hr_bpm 100 ||
      optLt r.recovery_score_pct 40 then
    "Abnormality suspected"
  else
    "No abnormality suspected"

/-- Neurological rule (lines 224-232): abnormal when cognitive readiness
< 50 or focus < 50 or stress > 4. -/
def neurological_risk_score (r : HRow) : String :=
  if optLt r.cognitive_readiness_score 50 || optLt r.focus_score 50 ||
      optGt r.stress_level 4 then
    "Abnormality suspected"
  else
    "No abnormality suspected"

/-- Metabolic rule (lines 234-241): abnormal when time-in-range < 60 or
GMI > 6.5. -/
def metabolic_risk_score (r : HRow) : String :=
  if optLt r.time_in_range_pct 60 || optGt r.gmi_percent (13 / 2) then
    "Abnormality suspected"
  else
    "No abnormality suspected"

/-- Skeletal rule (lines 243-250): abnormal when muscle mass < 50 or bone
mass < 5. -/
def skeletal_risk_score (r : HRow) : String :=
  if optLt r.muscle_mass_kg 50 || optLt r.bone_mass_kg 5 then
    "Abnormality suspected"
  else
    "No abnormality suspected"

/-- C10: a row whose consulted fields are all null is classified
"No abnormality suspected" by each physiological system's rule — missing
data is never flagged as abnormal and never an error. -/
theorem C10_all_null_not_abnormal (r : HRow) :
    (r.avg_hrv_ms = none → r.avg_resting_hr_bpm = none → r.recovery_score_pct = none →
      cardiovascular_risk_score r = "No abnormality suspected") ∧
    (r.cognitive_readiness_score = none → r.focus_score = none → r.stress_level = none →
      neurological_risk_score r = "No abnormality suspected") ∧
    (r.time_in_range_pct = none → r.gmi_percent = none →
      metabolic_risk_score r = "No abnormality suspected") ∧
    (r.muscle_mass_kg = none → r.bone_mass_kg = none →
      skeletal_risk_score r = "No abnormality suspected") := by
  refine ⟨fun h1 h2 h3 => ?_, fun h1 h2 h3 => ?_, fun h1 h2 => ?_, fun h1 h2 => ?_⟩
  · simp [cardiovascular_risk_score, optLt, optGt, h1, h2, h3]
  · simp [neurological_risk_score, optLt, optGt, h1, h2, h3]
  · simp [metabolic_risk_score, optLt, optGt, h1, h2]
  · simp [skeletal_risk_score, optLt, h1, h2]

/-- The all-null harmonized row. -/
def nullRow : HRow :=
  ⟨none, none, none, none, none, none, none, none, none, none, none, none,
   none, none, none⟩

/-- Witness for C10 at the all-null row. -/
theorem C10_witness :
    cardiovascular_risk_score nullRow = "No abnormality suspected" ∧
    neurological_risk_score nullRow = "No abnormality suspected" ∧
    metabolic_risk_score nullRow = "No abnormality suspected" ∧
    skeletal_risk_score nullRow = "No abnormality suspected" :=
  ⟨(C10_all_null_not_abnormal nullRow).1 rfl rfl rfl,
   (C10_all_null_not_abnormal nullRow).2.1 rfl rfl rfl,
   (C10_all_null_not_abnormal nullRow).2.2.1 rfl rfl,
   (C10_all_null_not_abnormal nullRow).2.2.2 rfl rfl⟩

/-- Number of non-null entries among a source's indicator fields:
`sum(1 for field in fields if pd.notna(row.get(field, np.nan)))`. -/
def countNonNull (l : List (Option ℚ)) : ℕ :=
  (l.filter (fun x => x.isSome)).length

/-- WHOOP indicator fields (line 396). -/
def whoopFields (r : HRow) : List (Option ℚ) :=
  [r.avg_resting_hr_bpm, r.avg_hrv_ms, r.recovery_score_pct]

/-- Starfit indicator fields (line 397). -/
def starfitFields (r : HRow) : List (Option ℚ) :=
  [r.weight_kg, r.bmi, r.body_fat_pct]

/-- EliteHRV indicator fields (line 398). -/
def elitehrvFields (r : HRow) : List (Option ℚ) :=
  [r.avg_hrv_ms]

/-- Dexcom indicator fields (line 399). -/
def dexcomFields (r : HRow) : List (Option ℚ) :=
  [r.avg_glucose_mg_dl, r.time_in_range_pct]

/-- Pison indicator fields (line 400). -/
def pisonFields (r : HRow) : List (Option ℚ) :=
  [r.cognitive_readiness_score, r.mental_agility_score]

/-- A source's completeness fraction at this row (line 404). -/
def sourceQuality (fields : List (Option ℚ)) : ℚ :=
  (countNonNull fields : ℚ) / (fields.length : ℚ)

/-- `data_quality_score` of a row (lines 391-408): the five per-source
fractions are summed, divided by the number of sources (5), and scaled
to a percentage. -/
def data_quality_score (r : HRow) : ℚ :=
  ((sourceQuality (whoopFields r) + sourceQuality (starfitFields r) +
    sourceQuality (elitehrvFields r) + sourceQuality (dexcomFields r) +
    sourceQuality (pisonFields r)) / 5) * 100

/-- Helper: a completeness fraction lies in [0, 1]. -/
theorem sourceQuality_mem (fields : List (Option ℚ)) :
    0 ≤ sourceQuality fields ∧ sourceQuality fields ≤ 1 := by
  unfold sourceQuality
  constructor
  · positivity
  · rcases Nat.eq_zero_or_pos fields.length with h | h
    · rw [h]
      norm_num
    · rw [div_le_one (by exact_mod_cast h)]
      exact_mod_cast (List.length_filter_le _ _)

/-- C6: the data-quality score of every row is the five-source average
completeness fraction as a percentage, hence always in [0, 100]; it is 0
when every indicator field of every source is null and 100 when every
indicator field of every source is non-null. -/
theorem C6_quality_score (r : HRow) :
    (0 ≤ data_quality_score r ∧ data_quality_score r ≤ 100) ∧
    (countNonNull (whoopFields r) = 0 → countNonNull (starfitFields r) = 0 →
      countNonNull (elitehrvFields r) = 0 → countNonNull (dexcomFields r) = 0 →
      countNonNull (pisonFields r) = 0 → data_quality_score r = 0) ∧
    (countNonNull (whoopFields r) = 3 → countNonNull (starfitFields r) = 3 →
      countNonNull (elitehrvFields r) = 1 → countNonNull (dexcomFields r) = 2 →
      countNonNull (pisonFields r) = 2 → data_quality_score r = 100) := by
  refine ⟨?_, ?_, ?_⟩
  · have h1 := sourceQuality_mem (whoopFields r)
    have h2 := sourceQuality_mem (starfitFields r)
    have h3 := sourceQuality_mem (elitehrvFields r)
    have h4 := sourceQuality_mem (dexcomFields r)
    have h5 := sourceQuality_mem (pisonFields r)
    unfold data_quality_score
    constructor
    · have : 0 ≤ sourceQuality (whoopFields r) + sourceQuality (starfitFields r) +
          sourceQuality (elitehrvFields r) + sourceQuality (dexcomFields r) +
          sourceQuality (pisonFields r) := by linarith [h1.1, h2.1, h3.1, h4.1, h5.1]
      linarith
    · have : sourceQuality (whoopFields r) + sourceQuality (starfitFields r) +
          sourceQuality (elitehrvFields r) + sourceQuality (dexcomFields r) +
          sourceQuality (pisonFields r) ≤ 5 := by linarith [h1.2, h2.2, h3.2, h4.2, h5.2]
      linarith
  · intro h1 h2 h3 h4 h5
    unfold data_quality_score sourceQuality
    rw [h1, h2, h3, h4, h5]
    norm_num
  · intro h1 h2 h3 h4 h5
    unfold data_quality_score sourceQuality
    rw [h1, h2, h3, h4, h5]
    have l1 : (whoopFields r).length = 3 := rfl
    have l2 : (starfitFields r).length = 3 := rfl
    have l3 : (elitehrvFields r).length = 1 := rfl
    have l4 : (dexcomFields r).length = 2 := rfl
    have l5 : (pisonFields r).length = 2 := rfl
    rw [l1, l2, l3, l4, l5]
    norm_num

/-- The fully-covered harmonized row. -/
def fullRow : HRow :=
  ⟨some 55, some 80, some 60, some 70, some 75, some 2, some 80, some 6,
   some 60, some 6, some 70, some 22, some 18, some 100, some 70⟩

/-- Witness for C6 at the all-null and the fully covered rows. -/
theorem C6_witness :
    data_quality_score nullRow = 0 ∧ data_quality_score fullRow = 100 :=
  ⟨(C6_quality_score nullRow).2.1 rfl rfl rfl rfl rfl,
   (C6_quality_score fullRow).2.2 rfl rfl rfl rfl rfl⟩

/-! ### Starfit adapter (`load_starfit_data`, lines 105-131)

The adapter strips unit suffixes from the string-valued measurement
columns and converts them with `.astype(float)` (lines 114-123), converts
pounds to kilograms, groups by date keeping the last measurement
(line 126), and wraps everything in `try`/`except`: any conversion error
anywhere empties the whole source. -/

/-- A raw measurement cell after its unit suffix is stripped: either it
converts to the number `q`, or `astype(float)` raises `ValueError` on it. -/
inductive RawCell
  | val (q : ℚ)
  | malformed
deriving DecidableEq

/-- A raw Starfit CSV row: its date and the ten converted measurement
columns (Weight, BMI, Body Fat, Heart Rate, Cardiac Index, Visceral Fat,
Body Water, Muscle Mass, Bone Mass, BMR). -/
structure StarfitRawRow where
  date : ℕ
  weight : RawCell
  bmi : RawCell
  bodyFat : RawCell
  heartRate : RawCell
  cardiacIndex : RawCell
  visceralFat : RawCell
  bodyWater : RawCell
  muscleMass : RawCell
  boneMass : RawCell
  bmr : RawCell

/-- The measurement cells of a raw row, in conversion order. -/
def rawCells (r : StarfitRawRow) : List RawCell :=
  [r.weight, r.bmi, r.bodyFat, r.heartRate, r.cardiacIndex, r.visceralFat,
   r.bodyWater, r.muscleMass, r.boneMass, r.bmr]

/-- A parsed Starfit daily record, masses already in kilograms. -/
structure StarfitDailyRow where
  date : ℕ
  weight : ℚ
  bmi : ℚ
  bodyFat : ℚ
  heartRate : ℚ
  cardiacIndex : ℚ
  visceralFat : ℚ
  bodyWater : ℚ
  muscleMass : ℚ
  boneMass : ℚ
  bmr : ℚ

/-- `float(...)` conversion of one stripped cell. -/
def parseCell (c : RawCell) : Except String ℚ :=
  match c with
  | .val q => .ok q
  | .malformed => .error "could not convert string to float"

/-- Pounds to kilograms: `* 0.453592` (lines 114, 121, 122). -/
def lbToKg (q : ℚ) : ℚ := q * (453592 / 1000000)

/-- Conversion of one raw row. The Python code converts column by column
and `astype(float)` raises on the first malformed cell of a column,
aborting the adapter; converting row by row has the same success condition
(no malformed cell anywhere) and the same values on success, which is all
the adapter's output depends on. -/
def parseRow (r : StarfitRawRow) : Except String StarfitDailyRow :=
  match parseCell r.weight with
  | .error e => .error e
  | .ok w =>
  match parseCell r.bmi with
  | .error e => .error e
  | .ok b =>
  match parseCell r.bodyFat with
  | .error e => .error e
  | .ok f =>
  match parseCell r.heartRate with
  | .error e => .error e
  | .ok hr =>
  match parseCell r.cardiacIndex with
  | .error e => .error e
  | .ok ci =>
  match parseCell r.visceralFat with
  | .error e => .error e
  | .ok vf =>
  match parseCell r.bodyWater with
  | .error e => .error e
  | .ok bw =>
  match parseCell r.muscleMass with
  | .error e => .error e
  | .ok mm =>
  match parseCell r.boneMass with
  | .error e => .error e
  | .ok bm =>
  match parseCell r.bmr with
  | .error e => .error e
  | .ok bmr => .ok ⟨r.date, lbToKg w, b, f, hr, ci, vf, bw, lbToKg mm, lbToKg bm, bmr⟩

/-- Sequencing of row conversions: the first raised `ValueError` aborts. -/
def mapExcept (f : StarfitRawRow → Except String StarfitDailyRow) :
    List StarfitRawRow → Except String (List StarfitDailyRow)
  | [] => .ok []
  | a :: l =>
    match f a with
    | .error e => .error e
    | .ok b =>
      match mapExcept f l with
      | .error e => .error e
      | .ok bs => .ok (b :: bs)

/-- `groupby('date').last()` (line 126): sorted distinct dates, each with
the last row carrying that date. -/
def starfitGroupLast (ps : List StarfitDailyRow) : List StarfitDailyRow :=
  (((ps.map (fun p => p.date)).dedup).insertionSort (· ≤ ·)).filterMap
    (fun d => ps.reverse.find? (fun p => p.date == d))

/-- `load_starfit_data`: convert all rows; any conversion error is caught
by the adapter's `except` and produces the empty table. -/
def load_starfit_data (rows : List StarfitRawRow) : List StarfitDailyRow :=
  match mapExcept parseRow rows with
  | .ok ps => starfitGroupLast ps
  | .error _ => []

/-- Helper: a raw row containing a malformed cell fails to convert. -/
theorem parseRow_error_of_malformed (r : StarfitRawRow)
    (h : RawCell.malformed ∈ rawCells r) : ∃ e, parseRow r = .error e := by
  cases hw : r.weight with
  | malformed => exact ⟨"could not convert string to float", by simp [parseRow, parseCell, hw]⟩
  | val qw =>
  cases hb : r.bmi with
  | malformed => exact ⟨"could not convert string to float", by simp [parseRow, parseCell, hw, hb]⟩
  | val qb =>
  cases hf : r.bodyFat with
  | malformed => exact ⟨"could not convert string to float", by simp [parseRow, parseCell, hw, hb, hf]⟩
  | val qf =>
  cases hh : r.heartRate with
  | malformed => exact ⟨"could not convert string to float", by simp [parseRow, parseCell, hw, hb, hf, hh]⟩
  | val qh =>
  cases hc : r.cardiacIndex with
  | malformed => exact ⟨"could not convert string to float", by simp [parseRow, parseCell, hw, hb, hf, hh, hc]⟩
  | val qc =>
  cases hv : r.visceralFat with
  | malformed => exact ⟨"could not convert string to float", by simp [parseRow, parseCell, hw, hb, hf, hh, hc, hv]⟩
  | val qv =>
  cases hbw : r.bodyWater with
  | malformed => exact ⟨"could not convert string to float", by simp [parseRow, parseCell, hw, hb, hf, hh, hc, hv, hbw]⟩
  | val qbw =>
  cases hm : r.muscleMass with
  | malformed => exact ⟨"could not convert string to float", by simp [parseRow, parseCell, hw, hb, hf, hh, hc, hv, hbw, hm]⟩
  | val qm =>
  cases hbm : r.boneMass with
  | malformed => exact ⟨"could not convert string to float", by simp [parseRow, parseCell, hw, hb, hf, hh, hc, hv, hbw, hm, hbm]⟩
  | val qbm =>
  cases hr : r.bmr with
  | malformed =>
    exact ⟨"could not convert string to float", by simp [parseRow, parseCell, hw, hb, hf, hh, hc, hv, hbw, hm, hbm, hr]⟩
  | val qr =>
    exfalso
    rw [rawCells, hw, hb, hf, hh, hc, hv, hbw, hm, hbm, hr] at h
    simp at h

/-- Helper: a raw row with no malformed cell converts, keeping its date. -/
theorem parseRow_ok_of_clean (r : StarfitRawRow)
    (h : RawCell.malformed ∉ rawCells r) :
    ∃ p, parseRow r = .ok p ∧ p.date = r.date := by
  cases hw : r.weight with
  | malformed => exact absurd (by rw [rawCells, hw]; simp) h
  | val qw =>
  cases hb : r.bmi with
  | malformed => exact absurd (by rw [rawCells, hb]; simp) h
  | val qb =>
  cases hf : r.bodyFat with
  | malformed => exact absurd (by rw [rawCells, hf]; simp) h
  | val qf =>
  cases hh : r.heartRate with
  | malformed => exact absurd (by rw [rawCells, hh]; simp) h
  | val qh =>
  cases hc : r.cardiacIndex with
  | malformed => exact absurd (by rw [rawCells, hc]; simp) h
  | val qc =>
  cases hv : r.visceralFat with
  | malformed => exact absurd (by rw [rawCells, hv]; simp) h
  | val qv =>
  cases hbw : r.bodyWater with
  | malformed => exact absurd (by rw [rawCells, hbw]; simp) h
  | val qbw =>
  cases hm : r.muscleMass with
  | malformed => exact absurd (by rw [rawCells, hm]; simp) h
  | val qm =>
  cases hbm : r.boneMass with
  | malformed => exact absurd (by rw [rawCells, hbm]; simp) h
  | val qbm =>
  cases hr : r.bmr with
  | malformed => exact absurd (by rw [rawCells, hr]; simp) h
  | val qr =>
    exact ⟨⟨r.date, lbToKg qw, qb, qf, qh, qc, qv, qbw, lbToKg qm, lbToKg qbm, qr⟩,
      by simp [parseRow, parseCell, hw, hb, hf, hh, hc, hv, hbw, hm, hbm, hr], rfl⟩

/-- Helper: some malformed cell in some row makes the conversion raise. -/
theorem mapExcept_error (rows : List StarfitRawRow)
    (h : ∃ r ∈ rows, RawCell.malformed ∈ rawCells r) :
    ∃ e, mapExcept parseRow rows = .error e := by
  induction rows with
  | nil => simp at h
  | cons a l ih =>
    rcases h with ⟨r, hr, hm⟩
    rcases List.mem_cons.1 hr with rfl | hmem
    · obtain ⟨e, he⟩ := parseRow_error_of_malformed r hm
      exact ⟨e, by simp [mapExcept, he]⟩
    · cases hpr : parseRow a with
      | error e => exact ⟨e, by simp [mapExcept, hpr]⟩
      | ok p =>
        obtain ⟨e, he⟩ := ih ⟨r, hmem, hm⟩
        exact ⟨e, by simp [mapExcept, hpr, he]⟩

/-- Helper: with no malformed cell anywhere the conversion succeeds and
preserves the date sequence. -/
theorem mapExcept_ok_of_clean (rows : List StarfitRawRow)
    (h : ∀ r ∈ rows, RawCell.malformed ∉ rawCells r) :
    ∃ ps, mapExcept parseRow rows = .ok ps ∧
      ps.map (fun p => p.date) = rows.map (fun r => r.date) := by
  induction rows with
  | nil => exact ⟨[], rfl, rfl⟩
  | cons a l ih =>
    obtain ⟨p, hp, hdate⟩ := parseRow_ok_of_clean a (h a (by simp))
    obtain ⟨ps, hps, hd⟩ := ih (fun r hr => h r (by simp [hr]))
    exact ⟨p :: ps, by simp [mapExcept, hp, hps], by simp [hdate, hd]⟩

/-- Helper: grouping-by-date-last maps a date list each of whose members
some record carries back to itself. -/
theorem filterMap_lastForDate (ps : List StarfitDailyRow) (ds : List ℕ)
    (h : ∀ d ∈ ds, ∃ r ∈ ps, r.date = d) :
    (ds.filterMap (fun d => ps.reverse.find? (fun p => p.date == d))).map
      (fun p => p.date) = ds := by
  induction ds with
  | nil => rfl
  | cons d rest ih =>
    obtain ⟨r, hr, hrd⟩ := h d (by simp)
    have hex : ∃ x ∈ ps.reverse, (fun p => p.date == d) x = true :=
      ⟨r, by simp [hr], by simp [hrd]⟩
    have hsome := List.find?_isSome.2 hex
    cases hf : ps.reverse.find? (fun p => p.date == d) with
    | none => rw [hf] at hsome; simp at hsome
    | some p =>
      have hpd := List.find?_some hf
      rw [beq_iff_eq] at hpd
      simp [List.filterMap_cons, hf, hpd, ih (fun x hx => h x (by simp [hx]))]

/-- C8 (amended): a malformed numeric string in ANY measurement field of
ANY record empties the whole Starfit source (the conversion error is
caught at adapter level), so a field parse failure is source-level, not
field-level; when every field of every record converts, one daily record
per distinct date is emitted. -/
theorem C8_parse_failure_source_level (rows : List StarfitRawRow) :
    ((∃ r ∈ rows, RawCell.malformed ∈ rawCells r) → load_starfit_data rows = []) ∧
    ((∀ r ∈ rows, RawCell.malformed ∉ rawCells r) →
      (load_starfit_data rows).map (fun p => p.date) =
        ((rows.map (fun r => r.date)).dedup).insertionSort (· ≤ ·)) := by
  constructor
  · intro h
    obtain ⟨e, he⟩ := mapExcept_error rows h
    simp [load_starfit_data, he]
  · intro h
    obtain ⟨ps, hps, hd⟩ := mapExcept_ok_of_clean rows h
    have hcov : ∀ d ∈ ((ps.map (fun p => p.date)).dedup).insertionSort (· ≤ ·),
        ∃ r ∈ ps, r.date = d := by
      intro d hdm
      rw [List.mem_insertionSort, List.mem_dedup, List.mem_map] at hdm
      exact hdm
    simp only [load_starfit_data, hps]
    unfold starfitGroupLast
    rw [filterMap_lastForDate ps _ hcov, hd]

/-- A well-formed raw Starfit row at date 1. -/
def goodRaw : StarfitRawRow :=
  ⟨1, .val 180, .val 24, .val 18, .val 60, .val 3, .val 7, .val 55,
   .val 90, .val 8, .val 1700⟩

/-- A raw Starfit row at date 2 whose Weight string fails conversion,
all other fields fine. -/
def badRaw : StarfitRawRow :=
  ⟨2, .malformed, .val 24, .val 18, .val 60, .val 3, .val 7, .val 55,
   .val 90, .val 8, .val 1700⟩

/-- Counterexample to C8 as stated: one malformed Weight in the second
record empties the adapter's entire output — the first record and the
second record's other fields are NOT emitted. -/
theorem C8_counterexample :
    load_starfit_data [goodRaw, badRaw] = [] ∧
    badRaw.weight = .malformed ∧
    RawCell.malformed ∉ rawCells goodRaw := by
  refine ⟨rfl, rfl, ?_⟩
  simp [rawCells, goodRaw]

/-- Witness for C8 on concrete inputs of both kinds. -/
theorem C8_witness :
    load_starfit_data [badRaw] = [] ∧
    (load_starfit_data [goodRaw]).map (fun p => p.date) =
      (([goodRaw].map (fun r => r.date)).dedup).insertionSort (· ≤ ·) :=
  ⟨(C8_parse_failure_source_level [badRaw]).1
      ⟨badRaw, by simp, by simp [rawCells, badRaw]⟩,
   (C8_parse_failure_source_level [goodRaw]).2
      (by
        intro r hr
        rw [List.mem_singleton] at hr
        subst hr
        simp [rawCells, goodRaw])⟩

/-! ### The unified-schema output contract (`_define_unified_schema`,
lines 19-57, and `harmonize_data` lines 431-437)

After all fields are populated, `harmonize_data` appends a NaN column for
every schema field not yet present (lines 432-434) and then reorders with
`harmonized_data[self.unified_schema]` (line 437), which keeps exactly the
schema columns in schema order and would raise `KeyError` on a missing one. -/

/-- A cell of the exported table: NaN, a number, or a string placeholder. -/
inductive CellVal
  | nan
  | num (q : ℚ)
  | str (s : String)
deriving DecidableEq

/-- The declared unified clinical schema, in declared order (lines 21-57). -/
def unified_schema : List String :=
  ["date", "patient_id", "data_quality_score",
   "avg_resting_hr_bpm", "avg_hrv_ms", "hrv_trend", "cardiac_index",
   "blood_pressure_systolic", "blood_pressure_diastolic",
   "avg_glucose_mg_dl", "time_in_range_pct", "gmi_percent",
   "glucose_variability_cv", "insulin_sensitivity_index",
   "weight_kg", "bmi", "body_fat_pct", "muscle_mass_kg",
   "visceral_fat_level", "bone_mass_kg", "body_water_pct",
   "sleep_duration_hours", "sleep_efficiency_pct", "sleep_consistency_pct",
   "deep_sleep_pct", "rem_sleep_pct", "sleep_debt_hours", "recovery_score_pct",
   "cognitive_readiness_score", "mental_agility_score", "focus_score",
   "stress_level", "circadian_compliance_pct",
   "daily_strain_score", "energy_expenditure_kcal", "steps_count",
   "exercise_duration_min", "cardio_fitness_score",
   "skin_temperature_celsius", "blood_oxygen_pct", "respiratory_rate_rpm",
   "cardiovascular_risk_score", "neurological_risk_score",
   "metabolic_risk_score", "skeletal_risk_score",
   "inflammation_markers", "oxidative_stress_level", "autonomic_balance_score",
   "metabolic_age",
   "weight_trend_30d", "glucose_trend_30d", "hrv_trend_30d",
   "sleep_trend_30d", "recovery_trend_30d",
   "whoop_data_pct", "dexcom_data_pct", "pison_data_pct",
   "starfit_data_pct", "elitehrv_data_pct",
   "physician_notes", "patient_reported_symptoms", "medication_changes",
   "life_events"]

/-- One iteration of `for field in self.unified_schema: if field not in
harmonized_data.columns: harmonized_data[field] = np.nan`. -/
def addStep (acc : List (String × CellVal)) (f : String) : List (String × CellVal) :=
  if ((acc.find? (fun p => p.1 == f)).isSome : Bool) then acc else acc ++ [(f, .nan)]

/-- The whole missing-field loop (lines 432-434). -/
def addMissingFields (schema : List String) (row : List (String × CellVal)) :
    List (String × CellVal) :=
  schema.foldl addStep row

/-- `harmonized_data[self.unified_schema]` on one row (line 437): keep
exactly the schema columns in schema order; `none` is the `KeyError` a
missing column would raise. -/
def selectColumns (schema : List String) (row : List (String × CellVal)) :
    Option (List (String × CellVal)) :=
  match schema with
  | [] => some []
  | f :: rest =>
    match row.find? (fun p => p.1 == f) with
    | none => none
    | some p =>
      match selectColumns rest row with
      | none => none
      | some out => some ((f, p.2) :: out)

/-- Helper: a successful lookup is unchanged by appending columns. -/
theorem find?_append_of_isSome {α : Type} (P : α → Bool) (l₁ l₂ : List α)
    (h : (l₁.find? P).isSome) : (l₁ ++ l₂).find? P = l₁.find? P := by
  rw [List.find?_append]
  cases hf : l₁.find? P with
  | none => rw [hf] at h; simp at h
  | some a => rfl

/-- Helper: one loop step never changes an existing column's lookup. -/
theorem addStep_find?_of_isSome (acc : List (String × CellVal)) (f : String)
    (P : String × CellVal → Bool) (h : (acc.find? P).isSome) :
    (addStep acc f).find? P = acc.find? P := by
  unfold addStep
  split
  · rfl
  · exact find?_append_of_isSome P acc [(f, .nan)] h

/-- Helper: the whole loop never changes an existing column's lookup. -/
theorem addMissing_find?_of_isSome (schema : List String)
    (row : List (String × CellVal)) (P : String × CellVal → Bool)
    (h : (row.find? P).isSome) :
    (addMissingFields schema row).find? P = row.find? P := by
  induction schema generalizing row with
  | nil => rfl
  | cons g rest ih =>
    show (addMissingFields rest (addStep row g)).find? P = row.find? P
    rw [ih (addStep row g) (by rw [addStep_find?_of_isSome row g P h]; exact h),
      addStep_find?_of_isSome row g P h]

/-- Helper: after its own loop step a column is present. -/
theorem addStep_self (acc : List (String × CellVal)) (f : String) :
    ((addStep acc f).find? (fun p => p.1 == f)).isSome := by
  unfold addStep
  split
  · assumption
  · rw [List.find?_append]
    rename_i hnone
    cases hf : acc.find? (fun p => p.1 == f) with
    | none => simp
    | some a => rw [hf] at hnone; simp at hnone

/-- Helper: after the loop every schema column is present. -/
theorem addMissing_present (schema : List String) (row : List (String × CellVal))
    (f : String) (h : f ∈ schema) :
    ((addMissingFields schema row).find? (fun p => p.1 == f)).isSome := by
  induction schema generalizing row with
  | nil => simp at h
  | cons g rest ih =>
    rcases List.mem_cons.1 h with rfl | hrest
    · show ((addMissingFields rest (addStep row f)).find? (fun p => p.1 == f)).isSome
      rw [addMissing_find?_of_isSome rest (addStep row f) _ (addStep_self row f)]
      exact addStep_self row f
    · exact ih (addStep row g) hrest

/-- Helper: a schema field the row does not populate (or that an earlier
loop step already filled as NaN) ends the loop present with value NaN. -/
theorem addMissing_absent_nan (schema : List String) (row : List (String × CellVal))
    (f : String) (hf : f ∈ schema)
    (h : row.find? (fun p => p.1 == f) = none ∨
         row.find? (fun p => p.1 == f) = some (f, CellVal.nan)) :
    (addMissingFields schema row).find? (fun p => p.1 == f) = some (f, CellVal.nan) := by
  induction schema generalizing row with
  | nil => simp at hf
  | cons g rest ih =>
    show (addMissingFields rest (addStep row g)).find? (fun p => p.1 == f) =
      some (f, CellVal.nan)
    rcases List.mem_cons.1 hf with rfl | hrest
    · have hstep : (addStep row f).find? (fun p => p.1 == f) = some (f, CellVal.nan) := by
        unfold addStep
        rcases h with hnone | hsome
        · rw [if_neg (by rw [hnone]; simp), List.find?_append, hnone]
          simp
        · rw [if_pos (by rw [hsome]; rfl)]
          exact hsome
      rw [addMissing_find?_of_isSome rest (addStep row f) _ (by rw [hstep]; rfl), hstep]
    · apply ih (addStep row g) hrest
      unfold addStep
      split
      · exact h
      · rw [List.find?_append]
        rcases h with hnone | hsome
        · rw [hnone]
          cases hgf : (g == f) with
          | true =>
            rw [beq_iff_eq] at hgf
            subst hgf
            right
            simp
          | false =>
            left
            simp [hgf]
        · rw [hsome]
          right
          rfl

/-- Helper: when every schema column is present, selection succeeds, emits
exactly the schema names in order, and copies the stored values. -/
theorem selectColumns_spec (schema : List String) (row : List (String × CellVal))
    (hall : ∀ f ∈ schema, ((row.find? (fun p => p.1 == f)).isSome : Bool)) :
    ∃ out, selectColumns schema row = some out ∧
      out.map Prod.fst = schema ∧
      (∀ f p, f ∈ schema → row.find? (fun q => q.1 == f) = some p → (f, p.2) ∈ out) := by
  induction schema with
  | nil => exact ⟨[], rfl, rfl, by simp⟩
  | cons g rest ih =>
    have hg := hall g (by simp)
    cases hf : row.find? (fun p => p.1 == g) with
    | none => rw [hf] at hg; simp at hg
    | some p =>
      obtain ⟨out, hsel, hmap, hmem⟩ := ih (fun f hfm => hall f (by simp [hfm]))
      refine ⟨(g, p.2) :: out, ?_, ?_, ?_⟩
      · simp [selectColumns, hf, hsel]
      · simp [hmap]
      · intro f q hfme hq
        rcases List.mem_cons.1 hfme with rfl | hrest
        · rw [hq] at hf
          injection hf with hpq
          subst hpq
          exact List.mem_cons_self _ _
        · exact List.mem_cons_of_mem _ (hmem f q hrest hq)

/-- C9: for every populated row, the export step succeeds and produces
exactly the declared unified-schema columns in declared order — schema
fields no source populated are present with the null value NaN (appended
by the fill loop), any column outside the schema is dropped, and populated
fields keep their values. -/
theorem C9_schema_contract (row : List (String × CellVal)) :
    ∃ out, selectColumns unified_schema (addMissingFields unified_schema row) = some out ∧
      out.map Prod.fst = unified_schema ∧
      (∀ c, c ∉ unified_schema → out.find? (fun p => p.1 == c) = none) ∧
      (∀ f p, f ∈ unified_schema → row.find? (fun q => q.1 == f) = some p →
        (f, p.2) ∈ out) ∧
      (∀ f, f ∈ unified_schema → row.find? (fun q => q.1 == f) = none →
        (f, CellVal.nan) ∈ out) := by
  have hall : ∀ f ∈ unified_schema,
      (((addMissingFields unified_schema row).find? (fun p => p.1 == f)).isSome : Bool) :=
    fun f hf => addMissing_present unified_schema row f hf
  obtain ⟨out, hsel, hmap, hmem⟩ :=
    selectColumns_spec unified_schema (addMissingFields unified_schema row) hall
  refine ⟨out, hsel, hmap, ?_, ?_, ?_⟩
  · intro c hc
    rw [List.find?_eq_none]
    intro x hx
    have hxs : x.1 ∈ out.map Prod.fst := List.mem_map.2 ⟨x, hx, rfl⟩
    rw [hmap] at hxs
    simp only [beq_iff_eq]
    exact fun hxc => hc (hxc ▸ hxs)
  · intro f p hf hfind
    apply hmem f p hf
    rw [addMissing_find?_of_isSome unified_schema row _ (by simp [hfind])]
    exact hfind
  · intro f hf hnone
    exact hmem f (f, CellVal.nan) hf
      (addMissing_absent_nan unified_schema row f hf (Or.inl hnone))

/-- A row holding one mapped field and one source-native column that is
not part of the unified schema. -/
def exRow : List (String × CellVal) :=
  [("date", CellVal.num 1), ("Total Power", CellVal.num 2000)]

/-- Witness for C9 at the concrete row: all schema columns come out in
order, the unmapped source column `Total Power` is dropped, the mapped
`date` value survives, and the unpopulated schema field `hrv_trend` is
exported as NaN. -/
theorem C9_witness :
    ∃ out, selectColumns unified_schema (addMissingFields unified_schema exRow) = some out ∧
      out.map Prod.fst = unified_schema ∧
      out.find? (fun p => p.1 == "Total Power") = none ∧
      ("date", CellVal.num 1) ∈ out ∧
      ("hrv_trend", CellVal.nan) ∈ out := by
  obtain ⟨out, h1, h2, h3, h4, h5⟩ := C9_schema_contract exRow
  refine ⟨out, h1, h2, h3 "Total Power" (by decide), ?_, ?_⟩
  · exact h4 "date" ("date", CellVal.num 1) (by decide) rfl
  · exact h5 "hrv_trend" (by decide) rfl

end Harmona
